import Mathlib

/-!
# Verification of the gdhi_adj outlier-adjustment engine

Shallow embedding of the core of the `gdhi_adj` pipeline:

* `gdhi_adj/adjustment/calc_adjustment.py` — `calc_imputed_val`
* `gdhi_adj/adjustment/apportion_adjustment.py` — `calc_non_outlier_proportions`,
  `apportion_adjustment`, `apportion_negative_adjustment`, `apportion_rollback_years`
* `gdhi_adj/preprocess/flag_preprocess.py` — `flag_rollback_years`, `create_master_flag`
* `gdhi_adj/preprocess.py` — `calc_zscores`

Modelling conventions:

* A pandas DataFrame is a `List` of row structures; adding a column is modelled
  by mapping into an extended structure.
* A float column that can hold NaN is modelled as `Option ℚ`, with `none`
  standing for NaN.  Pandas aggregation semantics are reproduced explicitly:
  sums and group transforms skip NaN (`optSum`), `min` of an all-NaN group is
  NaN (`optMin`), any comparison against NaN is `False`.
* Division is modelled by `divNaN`, which returns `none` (NaN) on an undefined
  operand or a zero denominator.  In every place `divNaN` is used below, a zero
  denominator can only arise in the `0 / 0` form (the enclosing code guarantees
  a numerator of zero there), which is NaN in IEEE arithmetic as well, so `none`
  is faithful.
* pandas left merges on keys that are unique in the right table are modelled as
  first-match lookups (`List.find?`).
* Final `sort_values(...).reset_index(drop=True)` calls are omitted: every
  property stated here is row-order independent, and pandas' default sort is
  not stable, so the source does not promise a deterministic row order within
  equal keys anyway.
* Raising `ValueError` is modelled by returning `Except.error`; the error
  payload keeps the data the message interpolates (e.g. the offending group
  keys).

The helper module `gdhi_adj/utils/transform_helpers.py` (`sum_match_check`,
`increment_until_not_in`, `ensure_list`) is not present in the sources, only
its unit tests and call sites are; those helpers are modelled from the spec
(and checked against their unit tests), as marked in their doc comments.
-/

set_option maxRecDepth 10000

namespace GdhiAdj

/-- Sum of a float column skipping NaN entries, as pandas `.sum()` /
`.transform("sum")` do (an all-NaN or empty group sums to `0`). -/
def optSum (l : List (Option ℚ)) : ℚ :=
  (l.filterMap id).sum

/-- Minimum of a float column skipping NaN entries, as pandas
`.transform("min")` does; an empty or all-NaN group yields NaN (`none`). -/
def optMin (l : List (Option ℚ)) : Option ℚ :=
  (l.filterMap id).min?

/-- Float division with NaN semantics: NaN on an undefined operand or a zero
denominator.  Every use below reaches the zero-denominator case only as
`0 / 0` (NaN in IEEE arithmetic too), so modelling it as `none` is faithful. -/
def divNaN (a b : Option ℚ) : Option ℚ :=
  match a, b with
  | some x, some y => if y = 0 then none else some (x / y)
  | _, _ => none

/-- Step function of the downward scan: decrement while the year is still in
the flagged list, for at most `fuel` steps.  The wrapper `scanDown` supplies
exactly the fuel the bound allows, so this equals the source's `while` loop
(see `scanDown`). -/
def scanDownAux (l : List Int) : Nat → Int → Int
  | 0, y => y
  | fuel + 1, y => if y ∈ l then scanDownAux l fuel (y - 1) else y

/-- Step function of the upward scan, symmetric to `scanDownAux`. -/
def scanUpAux (l : List Int) : Nat → Int → Int
  | 0, y => y
  | fuel + 1, y => if y ∈ l then scanUpAux l fuel (y + 1) else y

/-- Modelled from the spec: the downward scan of
`transform_helpers.increment_until_not_in` (module absent from the sources).
Per the spec, the backward scan steps year by year, "skipping any year that is
also in `years_to_adjust`", "down to a configured `start_year` floor"; once
the floor is passed the scan stops (the caller's lookup then finds no value,
which is the "no match — not an error" case).  The loop "while `y ∈ l` and
`bound ≤ y`: decrement" is realised structurally with fuel `(y + 1 - bound)`,
which is exactly the number of steps the bound admits: from `y ≥ bound` the
loop can decrement precisely until one past the bound.  Behaviour agrees with
the unit tests in `tests/utils/test_transform_helpers.py`, e.g.
`increment_until_not_in(2011, [2010, 2011], 2005, False) = 2009` and
`increment_until_not_in(2005, [2005], 2005, False) = 2004`. -/
def scanDown (l : List Int) (bound : Int) (y : Int) : Int :=
  scanDownAux l (y + 1 - bound).toNat y

/-- Modelled from the spec: the upward scan of
`transform_helpers.increment_until_not_in`, symmetric to `scanDown` with an
`end_year` ceiling, e.g. `increment_until_not_in(2010, [2010, 2011], 2015,
True) = 2012` and `increment_until_not_in(2015, [2015], 2015, True) =
2016`. -/
def scanUp (l : List Int) (bound : Int) (y : Int) : Int :=
  scanUpAux l (bound + 1 - y).toNat y

/-- Modelled from the spec: `transform_helpers.increment_until_not_in(year,
year_list, bound, is_increasing)` — find the first year not in `year_list`,
scanning up (`is_increasing = true`) or down from `year`, stopping once the
bound is passed. -/
def increment_until_not_in (year : Int) (yearList : List Int) (bound : Int)
    (isIncreasing : Bool) : Int :=
  if isIncreasing then scanUp yearList bound year else scanDown yearList bound year

/-- One row of the long-format adjustment table as fed to
`calc_non_outlier_proportions` / `calc_imputed_val`: identifying columns, the
constrained value `con_gdhi`, the per-entity `year_to_adjust` list (already
normalised to a list — `ensure_list` from the absent helpers module coerces
scalar/missing representations; in this typed embedding the column is a
`List Int` from the start, with the empty list for "no years to adjust"), and
the `rollback_flag` produced upstream by `flag_rollback_years`. -/
structure InRow where
  lsoa_code : String
  lad_code : String
  year : Int
  con_gdhi : ℚ
  year_to_adjust : List Int
  rollback_flag : Bool
deriving Repr, DecidableEq

/-- The outlier mask used throughout `apportion_adjustment.py` and
`calc_adjustment.py`: `r["year"] in r["year_to_adjust"]`. -/
def isOutlier (r : InRow) : Bool :=
  r.year_to_adjust.contains r.year

/-- `con_gdhi` looked up by `(lsoa_code, year)` — models the left merges of
`calc_imputed_val` against its `lookup` table (`(lsoa_code, year)` is unique
there, so a first-match lookup is exact); a missing key yields NaN. -/
def lookupCon (df : List InRow) (lsoa : String) (year : Int) : Option ℚ :=
  (df.find? (fun s => s.lsoa_code == lsoa && s.year == year)).map (·.con_gdhi)

/-- Output row of `calc_imputed_val`: the flagged input row with the safe-year
columns and the imputed value (the `additional_safe_year` /
`additional_con_gdhi` working columns are dropped at the end, as in the
source). -/
structure ImputedRow extends InRow where
  prev_safe_year : Int
  prev_con_gdhi : Option ℚ
  next_safe_year : Int
  next_con_gdhi : Option ℚ
  imputed_gdhi : Option ℚ
deriving Repr, DecidableEq

/-- `calc_adjustment.calc_imputed_val`: for each row flagged as an outlier
(`year ∈ year_to_adjust`), locate the previous and next safe years via
`increment_until_not_in`, look up their values, interpolate when both sides
have values, else extrapolate from the single available side using the value
one year beyond it (`next_safe_year + 1` resp. `prev_safe_year - 1`); rows for
which neither computation has its inputs keep `imputed_gdhi` NaN.  The
interpolation divisor `next_safe_year - prev_safe_year` is zero only in the
degenerate configuration `end_year < year < start_year`, where numpy produces
NaN (`inf * 0` or `0/0`), matched here by `divNaN`.  This is the per-row
computation; `calc_imputed_val` below maps it over the flagged rows. -/
def imputedRow (df : List InRow) (start_year end_year : Int) (r : InRow) :
    ImputedRow :=
  let p := increment_until_not_in r.year r.year_to_adjust start_year false
  let pv := lookupCon df r.lsoa_code p
  let n := increment_until_not_in r.year r.year_to_adjust end_year true
  let nv := lookupCon df r.lsoa_code n
  let interp : Option ℚ :=
    match pv, nv with
    | some a, some b =>
        (divNaN (some (b - a)) (some ((n : ℚ) - (p : ℚ)))).map
          (fun s => s * ((r.year : ℚ) - (p : ℚ)) + a)
    | _, _ => none
  let addY : Option Int :=
    if pv.isNone then some (n + 1)
    else if nv.isNone then some (p - 1) else none
  let addV : Option ℚ := addY.bind (fun ay => lookupCon df r.lsoa_code ay)
  let imput : Option ℚ :=
    match interp with
    | some v => some v
    | none =>
        match addV with
        | none => none
        | some w =>
            if pv.isNone then
              nv.map (fun b => b - (w - b) * ((n : ℚ) - (r.year : ℚ)))
            else
              pv.map (fun a => a + (a - w) * ((r.year : ℚ) - (p : ℚ)))
  { toInRow := r
    prev_safe_year := p
    prev_con_gdhi := pv
    next_safe_year := n
    next_con_gdhi := nv
    imputed_gdhi := imput }

/-- `calc_adjustment.calc_imputed_val`: restrict to the rows flagged as
outliers (`year ∈ year_to_adjust`) and compute the safe-year and imputed-value
columns for each (see `imputedRow`). -/
def calc_imputed_val (df : List InRow) (start_year end_year : Int) :
    List ImputedRow :=
  (df.filter (fun r => isOutlier r)).map (imputedRow df start_year end_year)

/-- Sum of a ℚ-valued column over the `(lad_code, year)` group of the table,
as `groupby(["lad_code", "year"]).transform("sum")` computes it. -/
def groupSumQ {α : Type} (df : List α) (lad : α → String) (year : α → Int)
    (f : α → ℚ) (l : String) (y : Int) : ℚ :=
  ((df.filter (fun s => lad s == l && year s == y)).map f).sum

/-- NaN-skipping sum of an `Option ℚ` column over a `(lad_code, year)`
group. -/
def groupSumOpt {α : Type} (df : List α) (lad : α → String) (year : α → Int)
    (f : α → Option ℚ) (l : String) (y : Int) : ℚ :=
  optSum ((df.filter (fun s => lad s == l && year s == y)).map f)

/-- Modelled from the spec: `transform_helpers.sum_match_check(df,
grouping_cols, unadjusted_col, adjusted_col, sum_tolerance)` (module absent
from the sources).  Per the spec it is the fatal sum-invariant check: for each
`(lad_code, year)` group the adjusted column's sum must match the unadjusted
column's sum within the absolute tolerance, otherwise `ValueError`.  A
difference of exactly the tolerance passes (its unit tests pin only `5e-7`
passing and `1e-4` failing; the inline check of `calc_adjustment.py` uses
`> tolerance` to fail, which this follows).  Returns `true` when some group
violates the tolerance, i.e. when the source raises. -/
def sumMatchFails {α : Type} (df : List α) (lad : α → String)
    (year : α → Int) (unadj : α → ℚ) (adj : α → Option ℚ) (tol : ℚ) : Bool :=
  df.any (fun r =>
    !(decide (|groupSumQ df lad year unadj (lad r) (year r) -
        groupSumOpt df lad year adj (lad r) (year r)| ≤ tol)))

/-- The `1e-6` absolute tolerance passed to every `sum_match_check` call in
`apportion_adjustment.py` (`sum_tolerance=0.000001`). -/
def sumTolerance : ℚ := 1 / 1000000

/-- Output row of `calc_non_outlier_proportions`: the input row plus the
`lad_total`, `non_outlier_total` and `gdhi_proportion` columns.
`non_outlier_total` is NaN on outlier rows: the source computes the transform
on `df[~mask]` only, and reassigning that series to `df` leaves NaN on the
masked-out (outlier) rows. -/
structure PropRow extends InRow where
  lad_total : ℚ
  non_outlier_total : Option ℚ
  gdhi_proportion : Option ℚ
deriving Repr, DecidableEq

/-- The non-outlier total of a `(lad_code, year)` group: sum of `con_gdhi`
over the group's rows whose `year` is not in their own `year_to_adjust`. -/
def nonOutlierSum (df : List InRow) (l : String) (y : Int) : ℚ :=
  ((df.filter (fun s => !isOutlier s && s.lad_code == l && s.year == y)).map
    (·.con_gdhi)).sum

/-- The `non_outlier_total` column value of a row: NaN on outlier rows (see
`PropRow`), the group's non-outlier sum otherwise. -/
def nonOutlierTotal (df : List InRow) (r : InRow) : Option ℚ :=
  if isOutlier r then none else some (nonOutlierSum df r.lad_code r.year)

/-- The offending `(lad_code, year)` pairs collected for the zero-denominator
error message of `calc_non_outlier_proportions`: groups of rows whose
`non_outlier_total` column is (defined and) zero, de-duplicated.  The source
additionally sorts the pairs for a deterministic message; the sort is omitted
here since only which pairs are enumerated matters. -/
def zeroNonOutlierPairs (df : List InRow) : List (String × Int) :=
  ((df.filter (fun r => nonOutlierTotal df r == some 0)).map
    (fun r => (r.lad_code, r.year))).dedup

/-- The column-building step of `calc_non_outlier_proportions`: add
`lad_total` (group sum of `con_gdhi`), `non_outlier_total` (group sum
restricted to non-outlier rows, NaN on outlier rows) and `gdhi_proportion =
con_gdhi / non_outlier_total` (NaN where the total is NaN). -/
def propRows (df : List InRow) : List PropRow :=
  df.map (fun r =>
    { toInRow := r
      lad_total := groupSumQ df (·.lad_code) (·.year) (·.con_gdhi)
        r.lad_code r.year
      non_outlier_total := nonOutlierTotal df r
      gdhi_proportion := (nonOutlierTotal df r).map
        (fun t => r.con_gdhi / t) })

/-- `apportion_adjustment.calc_non_outlier_proportions`: build the
`lad_total` / `non_outlier_total` / `gdhi_proportion` columns (`propRows`),
guarded by the zero-denominator check — if any row's `non_outlier_total` is
zero, raise `ValueError` naming the offending `(lad_code, year)` groups. -/
def calc_non_outlier_proportions (df : List InRow) :
    Except (List (String × Int)) (List PropRow) :=
  if (zeroNonOutlierPairs df).isEmpty then .ok (propRows df)
  else .error (zeroNonOutlierPairs df)

/-- The `(lsoa_code, year, imputed_gdhi)` projection of the imputed table that
`apportion_adjustment` merges in (`imputed_df[["lsoa_code", "year",
"imputed_gdhi"]]`). -/
structure ImpRow where
  lsoa_code : String
  year : Int
  imputed_gdhi : Option ℚ
deriving Repr, DecidableEq

/-- The projection applied to `calc_imputed_val` output before the merge. -/
def projectImputed (t : ImputedRow) : ImpRow :=
  { lsoa_code := t.lsoa_code, year := t.year, imputed_gdhi := t.imputed_gdhi }

/-- The merged `imputed_gdhi` of a row: left merge on `(lsoa_code, year)`
against the imputed table, modelled as a first-match lookup (the keys are
unique in the imputed table, one row per flagged `(lsoa, year)`); a missing
key yields NaN. -/
def lookupImputed (imputed : List ImpRow) (lsoa : String) (year : Int) :
    Option ℚ :=
  (imputed.find? (fun s => s.lsoa_code == lsoa && s.year == year)).bind
    (·.imputed_gdhi)

/-- Group sum of the merged `imputed_gdhi` column over a `(lad_code, year)`
group (NaN entries skipped, an all-NaN group sums to 0, as
`transform("sum")` does). -/
def imputedGroupSum (df : List PropRow) (imputed : List ImpRow) (l : String)
    (y : Int) : ℚ :=
  optSum ((df.filter (fun s => s.lad_code == l && s.year == y)).map
    (fun s => lookupImputed imputed s.lsoa_code s.year))

/-- Output row of `apportion_adjustment`: the proportions row plus the merged
`imputed_gdhi`, the `adjusted_total` and the `adjusted_con_gdhi` columns. -/
structure AdjRow extends PropRow where
  imputed_gdhi : Option ℚ
  adjusted_total : ℚ
  adjusted_con_gdhi : Option ℚ
deriving Repr, DecidableEq

/-- The column-building step of `apportion_adjustment.apportion_adjustment`:
merge the imputed values onto the table by `(lsoa_code, year)`, set
`adjusted_total = lad_total -` (group sum of imputed values), and set
`adjusted_con_gdhi` to the imputed value where defined and to
`gdhi_proportion * adjusted_total` otherwise (NaN where the proportion is
NaN). -/
def apportionAdjustmentRows (df : List PropRow) (imputed : List ImpRow) :
    List AdjRow :=
  df.map (fun r =>
    let imp := lookupImputed imputed r.lsoa_code r.year
    let adjTotal := r.lad_total - imputedGroupSum df imputed r.lad_code r.year
    { toPropRow := r
      imputed_gdhi := imp
      adjusted_total := adjTotal
      adjusted_con_gdhi :=
        match imp with
        | some v => some v
        | none => r.gdhi_proportion.map (fun p => p * adjTotal) })

/-- `apportion_adjustment.apportion_adjustment`: the column-building step
(`apportionAdjustmentRows`) followed by the fatal `sum_match_check` of
`con_gdhi` against `adjusted_con_gdhi` per `(lad_code, year)` at tolerance
`1e-6`. -/
def apportion_adjustment (df : List PropRow) (imputed : List ImpRow) :
    Except String (List AdjRow) :=
  if sumMatchFails (apportionAdjustmentRows df imputed) (·.lad_code) (·.year)
      (·.con_gdhi) (·.adjusted_con_gdhi) sumTolerance then
    .error "Adjustment check failed: sums do not match after adjustment."
  else
    .ok (apportionAdjustmentRows df imputed)

/-- Output row of `apportion_negative_adjustment`: the adjusted row plus the
negative-elimination working columns and the final `readjusted_con_gdhi`. -/
structure NegRow extends AdjRow where
  min_adjusted_gdhi : Option ℚ
  abs_adjustment_val : ℚ
  over_adjusted_gdhi : Option ℚ
  readjusted_con_gdhi : Option ℚ
deriving Repr, DecidableEq

/-- The per-group offset of the negative-elimination step:
`|min_adjusted_gdhi|` when the group minimum is negative, else `0` (an
undefined NaN minimum compares false against `0`, giving `0`, as `np.where`
does). -/
def absAdjustmentVal (m : Option ℚ) : ℚ :=
  match m with
  | some mv => if mv < 0 then -mv else 0
  | none => 0

/-- The `(lad_code, year)` group of a row in the adjusted table. -/
def adjGroup (df : List AdjRow) (l : String) (y : Int) : List AdjRow :=
  df.filter (fun s => s.lad_code == l && s.year == y)

/-- `min_adjusted_gdhi`: group minimum of `adjusted_con_gdhi` (NaN skipped;
NaN when the whole group is NaN). -/
def groupMinAdjusted (df : List AdjRow) (l : String) (y : Int) : Option ℚ :=
  optMin ((adjGroup df l y).map (·.adjusted_con_gdhi))

/-- The group sum of the offset-shifted column `over_adjusted_gdhi` (NaN
skipped). -/
def overAdjustedSum (df : List AdjRow) (l : String) (y : Int) (offset : ℚ) :
    ℚ :=
  optSum ((adjGroup df l y).map (fun s =>
    s.adjusted_con_gdhi.map (fun v => v + offset)))

/-- The column-building step of `apportion_negative_adjustment`: per
`(lad_code, year)` group take the minimum adjusted value, offset every member
by its absolute value when negative (`over_adjusted_gdhi`), and renormalise
the group to `lad_total` via `over / sum(over) * lad_total`
(`readjusted_con_gdhi`).  When `sum(over)` is zero every defined `over` value
is zero (the offset makes the column nonnegative), so the division is `0/0`,
NaN (`divNaN`). -/
def negAdjustmentRows (df : List AdjRow) : List NegRow :=
  df.map (fun r =>
    let absAdj := absAdjustmentVal (groupMinAdjusted df r.lad_code r.year)
    { toAdjRow := r
      min_adjusted_gdhi := groupMinAdjusted df r.lad_code r.year
      abs_adjustment_val := absAdj
      over_adjusted_gdhi := r.adjusted_con_gdhi.map (fun v => v + absAdj)
      readjusted_con_gdhi :=
        (divNaN (r.adjusted_con_gdhi.map (fun v => v + absAdj))
          (some (overAdjustedSum df r.lad_code r.year absAdj))).map
          (fun q => q * r.lad_total) })

/-- `apportion_adjustment.apportion_negative_adjustment`: the column-building
step (`negAdjustmentRows`) followed by the fatal checks — no negative
`readjusted_con_gdhi` may remain, and the group sums of `readjusted_con_gdhi`
must match `con_gdhi` within `1e-6`. -/
def apportion_negative_adjustment (df : List AdjRow) :
    Except String (List NegRow) :=
  if (negAdjustmentRows df).any (fun r =>
      match r.readjusted_con_gdhi with
      | some v => decide (v < 0)
      | none => false) then
    .error "Negative value check failed: negative values found after adjustment."
  else if sumMatchFails (negAdjustmentRows df) (·.lad_code) (·.year)
      (·.con_gdhi) (·.readjusted_con_gdhi) sumTolerance then
    .error "Adjustment check failed: LAD sums do not match after adjustment."
  else
    .ok (negAdjustmentRows df)

/-- The latest rollback year: maximum `year` over rollback-flagged rows, NaN
(`none`) when no row is flagged (pandas `max()` of an empty selection). -/
def maxRollbackYear (df : List NegRow) : Option Int :=
  ((df.filter (·.rollback_flag)).map (·.year)).max?

/-- `lsoa_max_rollback_gdhi` of `apportion_rollback_years`: per LSOA, the
minimum `readjusted_con_gdhi` among that LSOA's rows at the last rollback
year; NaN when the LSOA has no such row (a `.map` against a groupby index
misses). -/
def lsoaMaxRollbackGdhi (df : List NegRow) (lsoa : String) : Option ℚ :=
  (maxRollbackYear df).bind (fun y =>
    optMin (((df.filter (fun s => s.year == y && s.lsoa_code == lsoa))).map
      (·.readjusted_con_gdhi)))

/-- `lad_max_rollback_sums` of `apportion_rollback_years`: per LAD, the
NaN-skipping sum of `readjusted_con_gdhi` at the last rollback year; NaN when
the LAD has no row at that year. -/
def ladMaxRollbackSums (df : List NegRow) (lad : String) : Option ℚ :=
  (maxRollbackYear df).bind (fun y =>
    let sel := df.filter (fun s => s.year == y && s.lad_code == lad)
    if sel.isEmpty then none
    else some (optSum (sel.map (·.readjusted_con_gdhi))))

/-- Output row of `apportion_rollback_years`. -/
structure RollRow extends NegRow where
  rollback_con_gdhi : Option ℚ
deriving Repr, DecidableEq

/-- The column-building step of `apportion_rollback_years`: on
rollback-flagged rows replace the value by `lad_total *
(lsoa_max_rollback_gdhi / lad_max_rollback_sums)` — the entity's share at the
last rollback year applied to the group total — and keep
`readjusted_con_gdhi` elsewhere. -/
def rollbackRows (df : List NegRow) : List RollRow :=
  df.map (fun r =>
    { toNegRow := r
      rollback_con_gdhi :=
        if r.rollback_flag then
          (divNaN (lsoaMaxRollbackGdhi df r.lsoa_code)
            (ladMaxRollbackSums df r.lad_code)).map
            (fun q => r.lad_total * q)
        else r.readjusted_con_gdhi })

/-- `apportion_adjustment.apportion_rollback_years`: the column-building step
(`rollbackRows`) followed by the fatal `sum_match_check` of `con_gdhi`
against `rollback_con_gdhi` per `(lad_code, year)` at tolerance `1e-6`. -/
def apportion_rollback_years (df : List NegRow) :
    Except String (List RollRow) :=
  if sumMatchFails (rollbackRows df) (·.lad_code) (·.year) (·.con_gdhi)
      (·.rollback_con_gdhi) sumTolerance then
    .error "Adjustment check failed: sums do not match after adjustment."
  else
    .ok (rollbackRows df)

/-- One row of the table fed to `flag_preprocess.flag_rollback_years`: the
forward and backward period-over-period ratios are float columns that are NaN
at each series boundary (`pct_change` of the first element). -/
structure RateRow where
  lsoa_code : String
  year : Int
  backward_pct_change : Option ℚ
  forward_pct_change : Option ℚ
deriving Repr, DecidableEq

/-- Output row of `flag_rollback_years`. -/
structure RollFlagRow extends RateRow where
  rollback_flag : Bool
deriving Repr, DecidableEq

/-- `flag_preprocess.flag_rollback_years`: flag a row when its backward or
forward ratio equals exactly `1.0` and its year lies in the (hardcoded,
inclusive) window `2010..2014` (`df["year"].between(2010, 2014)`).  A NaN
ratio compares unequal to `1.0`. -/
def flag_rollback_years (df : List RateRow) : List RollFlagRow :=
  df.map (fun r =>
    { toRateRow := r
      rollback_flag :=
        (r.backward_pct_change == some 1 || r.forward_pct_change == some 1) &&
          (2010 ≤ r.year && r.year ≤ 2014) })

/-- One row of the table fed to `flag_preprocess.create_master_flag`, with
the three z-score flag columns (prefix `z_`) and the three IQR flag columns
(prefix `iqr_`) that the pipeline produces (`bkwd`, `frwd`, `raw`). -/
structure ScoreRow where
  lsoa_code : String
  year : Int
  z_bkwd_flag : Bool
  z_frwd_flag : Bool
  z_raw_flag : Bool
  iqr_bkwd_flag : Bool
  iqr_frwd_flag : Bool
  iqr_raw_flag : Bool
deriving Repr, DecidableEq

/-- Output row of `create_master_flag`. -/
structure MasterRow extends ScoreRow where
  master_z_flag : Bool
  master_iqr_flag : Bool
  master_flag : Bool
deriving Repr, DecidableEq

/-- The per-entity sum of one boolean flag column
(`groupby("lsoa_code").agg(sum)` counts `True` cells). -/
def flagColSum (df : List ScoreRow) (lsoa : String) (f : ScoreRow → Bool) :
    Nat :=
  (df.filter (fun r => r.lsoa_code == lsoa)).countP f

/-- The three z-flag column accessors, in the column order of the pipeline. -/
def zFlagCols : List (ScoreRow → Bool) :=
  [(·.z_bkwd_flag), (·.z_frwd_flag), (·.z_raw_flag)]

/-- The three IQR-flag column accessors. -/
def iqrFlagCols : List (ScoreRow → Bool) :=
  [(·.iqr_bkwd_flag), (·.iqr_frwd_flag), (·.iqr_raw_flag)]

/-- `master_z_flag` of an entity, latest revision
(`flag_preprocess.create_master_flag`): `(z_count[z_cols] >= 1).sum(axis=1)
>= 1` — at least one z-flag column sums to at least 1 over the entity's
rows. -/
def masterZFlag (df : List ScoreRow) (lsoa : String) : Bool :=
  1 ≤ zFlagCols.countP (fun f => 1 ≤ flagColSum df lsoa f)

/-- `master_iqr_flag` of an entity, latest revision: identical logic over the
IQR flag columns. -/
def masterIqrFlag (df : List ScoreRow) (lsoa : String) : Bool :=
  1 ≤ iqrFlagCols.countP (fun f => 1 ≤ flagColSum df lsoa f)

/-- `flag_preprocess.create_master_flag` (latest revision of the aggregator;
the superseded copy in `preprocess.py` used a `>= 2` column threshold):
per-entity master flags joined back onto every row of the entity, with
`master_flag = master_z_flag | master_iqr_flag`. -/
def create_master_flag (df : List ScoreRow) : List MasterRow :=
  df.map (fun r =>
    { toScoreRow := r
      master_z_flag := masterZFlag df r.lsoa_code
      master_iqr_flag := masterIqrFlag df r.lsoa_code
      master_flag := masterZFlag df r.lsoa_code || masterIqrFlag df r.lsoa_code })

/-- The defined (non-NaN) observations of a float column, in order — what
`scipy.stats.zscore(..., nan_policy="omit")` computes mean and deviation
over. -/
def obsVals (xs : List (Option ℚ)) : List ℚ :=
  xs.filterMap id

/-- Mean of a group's observations. -/
def groupMean (l : List ℚ) : ℚ :=
  l.sum / l.length

/-- Bessel-corrected sample variance (`ddof=1`) of a group's observations.
For fewer than two observations the divisor is zero; the source's standard
deviation is then NaN, reproduced here by requiring `2 ≤ length` (and a
positive variance) wherever the score is used. -/
def sampleVar (l : List ℚ) : ℚ :=
  ((l.map (fun x => (x - groupMean l) ^ 2)).sum) / ((l.length : ℚ) - 1)

/-- The z-score outlier flag of `preprocess.calc_zscores` for one cell, given
its group's column `xs`: the source computes
`zscore(x, nan_policy="omit", ddof=1)` and flags `score > 3.0`.  A NaN cell,
a group with fewer than two observations, or a zero sample variance make the
score NaN, which never flags.  `score > 3` is encoded without square roots:
for a positive variance, `dev / sqrt(var) > 3` holds iff `dev > 0` and
`dev ^ 2 > 9 * var` (proved as `zFlag_iff_score` below). -/
def zFlag (xs : List (Option ℚ)) (x : Option ℚ) : Bool :=
  match x with
  | none => false
  | some v =>
      let l := obsVals xs
      decide (2 ≤ l.length ∧ 0 < sampleVar l ∧ 0 < v - groupMean l ∧
        9 * sampleVar l < (v - groupMean l) ^ 2)

/-- `preprocess.calc_zscores` restricted to one group's column: the boolean
`z_<prefix>_flag` column for the group (the zscore column itself, a float,
is represented only through the flag; grouping and column naming are handled
by the caller in the source). -/
def calc_zscores (xs : List (Option ℚ)) : List Bool :=
  xs.map (zFlag xs)

/-- The extrapolation rule as the spec words it (stated for comparison with
the source's behaviour, not taken from the source): "locate one additional
reference year 4 years beyond the single available safe year ... linearly
extrapolate using the slope between the safe year and this additional
reference year" — here for the forward-safe-year case. -/
def specFourYearExtrap (df : List InRow) (lsoa : String)
    (year next_safe : Int) : Option ℚ :=
  match lookupCon df lsoa next_safe, lookupCon df lsoa (next_safe + 4) with
  | some b, some w => some (b + (w - b) / 4 * ((year : ℚ) - (next_safe : ℚ)))
  | _, _ => none

/-- The proportions-then-apportionment sequencing of `run_adjustment`
(`calc_non_outlier_proportions` followed by `apportion_adjustment`); `none`
when either stage raises. -/
def runApportionment (df : List InRow) (imputed : List ImpRow) :
    Option (List AdjRow) :=
  match calc_non_outlier_proportions df with
  | .ok props => (apportion_adjustment props imputed).toOption
  | .error _ => none

/-- A `(lad_code, year)` partition "has a zero non-outlier total": it contains
at least one non-outlier row (so pandas actually materialises the total — an
all-outlier partition's total is NaN, not zero) and the sum of `con_gdhi` over
its non-outlier rows is zero. -/
def partitionZeroNonOutlier (df : List InRow) (l : String) (y : Int) : Prop :=
  (∃ r ∈ df, r.lad_code = l ∧ r.year = y ∧ isOutlier r = false) ∧
    nonOutlierSum df l y = 0

/-! ### Concrete tables used by the worked examples and witnesses -/

/-- The end-to-end scenario table: group `E01`, year `2002`, three entities
with constrained values `3, 9, 8`, entity `E3` flagged for `2002`. -/
def exScenarioDf : List InRow :=
  [{ lsoa_code := "E1", lad_code := "E01", year := 2002, con_gdhi := 3,
     year_to_adjust := [], rollback_flag := false },
   { lsoa_code := "E2", lad_code := "E01", year := 2002, con_gdhi := 9,
     year_to_adjust := [], rollback_flag := false },
   { lsoa_code := "E3", lad_code := "E01", year := 2002, con_gdhi := 8,
     year_to_adjust := [2002], rollback_flag := false }]

/-- The imputed table of the end-to-end scenario: `E3` at `2002` imputed to
`5`. -/
def exScenarioImp : List ImpRow :=
  [{ lsoa_code := "E3", year := 2002, imputed_gdhi := some 5 }]

/-- `calc_non_outlier_proportions exScenarioDf` output, written out. -/
def exScenarioProps : List PropRow :=
  [{ lsoa_code := "E1", lad_code := "E01", year := 2002, con_gdhi := 3,
     year_to_adjust := [], rollback_flag := false, lad_total := 20,
     non_outlier_total := some 12, gdhi_proportion := some (1/4) },
   { lsoa_code := "E2", lad_code := "E01", year := 2002, con_gdhi := 9,
     year_to_adjust := [], rollback_flag := false, lad_total := 20,
     non_outlier_total := some 12, gdhi_proportion := some (3/4) },
   { lsoa_code := "E3", lad_code := "E01", year := 2002, con_gdhi := 8,
     year_to_adjust := [2002], rollback_flag := false, lad_total := 20,
     non_outlier_total := none, gdhi_proportion := none }]

/-- `apportion_adjustment exScenarioProps exScenarioImp` output, written
out: adjusted total `20 - 5 = 15`, adjusted values `3.75, 11.25, 5`. -/
def exScenarioOut : List AdjRow :=
  [{ lsoa_code := "E1", lad_code := "E01", year := 2002, con_gdhi := 3,
     year_to_adjust := [], rollback_flag := false, lad_total := 20,
     non_outlier_total := some 12, gdhi_proportion := some (1/4),
     imputed_gdhi := none, adjusted_total := 15,
     adjusted_con_gdhi := some (15/4) },
   { lsoa_code := "E2", lad_code := "E01", year := 2002, con_gdhi := 9,
     year_to_adjust := [], rollback_flag := false, lad_total := 20,
     non_outlier_total := some 12, gdhi_proportion := some (3/4),
     imputed_gdhi := none, adjusted_total := 15,
     adjusted_con_gdhi := some (45/4) },
   { lsoa_code := "E3", lad_code := "E01", year := 2002, con_gdhi := 8,
     year_to_adjust := [2002], rollback_flag := false, lad_total := 20,
     non_outlier_total := none, gdhi_proportion := none,
     imputed_gdhi := some 5, adjusted_total := 15,
     adjusted_con_gdhi := some 5 }]

/-- The negative-elimination scenario table: one `(E01, 2000)` group of four
entities with adjusted values `-0.5, 5.5, -1, 6` (sum `10`), constrained
values summing to `10` and `lad_total = 10`. -/
def exNegDf : List AdjRow :=
  [{ lsoa_code := "E1", lad_code := "E01", year := 2000, con_gdhi := 1,
     year_to_adjust := [], rollback_flag := false, lad_total := 10,
     non_outlier_total := some 10, gdhi_proportion := some (1/10),
     imputed_gdhi := none, adjusted_total := 10,
     adjusted_con_gdhi := some (-(1/2)) },
   { lsoa_code := "E2", lad_code := "E01", year := 2000, con_gdhi := 2,
     year_to_adjust := [], rollback_flag := false, lad_total := 10,
     non_outlier_total := some 10, gdhi_proportion := some (2/10),
     imputed_gdhi := none, adjusted_total := 10,
     adjusted_con_gdhi := some (11/2) },
   { lsoa_code := "E3", lad_code := "E01", year := 2000, con_gdhi := 3,
     year_to_adjust := [], rollback_flag := false, lad_total := 10,
     non_outlier_total := some 10, gdhi_proportion := some (3/10),
     imputed_gdhi := none, adjusted_total := 10,
     adjusted_con_gdhi := some (-1) },
   { lsoa_code := "E4", lad_code := "E01", year := 2000, con_gdhi := 4,
     year_to_adjust := [], rollback_flag := false, lad_total := 10,
     non_outlier_total := some 10, gdhi_proportion := some (4/10),
     imputed_gdhi := none, adjusted_total := 10,
     adjusted_con_gdhi := some 6 }]

/-- The rollback example table (already negative-eliminated): one `(E01,
2014)` group, both rows rollback-flagged, readjusted values `6, 14` against
constrained values `5, 15` and `lad_total = 20`. -/
def exRollDf : List NegRow :=
  [{ lsoa_code := "E1", lad_code := "E01", year := 2014, con_gdhi := 5,
     year_to_adjust := [], rollback_flag := true, lad_total := 20,
     non_outlier_total := some 20, gdhi_proportion := some (1/4),
     imputed_gdhi := none, adjusted_total := 20,
     adjusted_con_gdhi := some 6, min_adjusted_gdhi := some 6,
     abs_adjustment_val := 0, over_adjusted_gdhi := some 6,
     readjusted_con_gdhi := some 6 },
   { lsoa_code := "E2", lad_code := "E01", year := 2014, con_gdhi := 15,
     year_to_adjust := [], rollback_flag := true, lad_total := 20,
     non_outlier_total := some 20, gdhi_proportion := some (3/4),
     imputed_gdhi := none, adjusted_total := 20,
     adjusted_con_gdhi := some 14, min_adjusted_gdhi := some 6,
     abs_adjustment_val := 0, over_adjusted_gdhi := some 14,
     readjusted_con_gdhi := some 14 }]

/-- `negAdjustmentRows exNegDf`, written out: offset `1`, shifted values
`0.5, 6.5, 0, 7` (sum `14`), renormalised by `10/14`. -/
def exNegOut : List NegRow :=
  [{ lsoa_code := "E1", lad_code := "E01", year := 2000, con_gdhi := 1,
     year_to_adjust := [], rollback_flag := false, lad_total := 10,
     non_outlier_total := some 10, gdhi_proportion := some (1/10),
     imputed_gdhi := none, adjusted_total := 10,
     adjusted_con_gdhi := some (-(1/2)), min_adjusted_gdhi := some (-1),
     abs_adjustment_val := 1, over_adjusted_gdhi := some (1/2),
     readjusted_con_gdhi := some (5/14) },
   { lsoa_code := "E2", lad_code := "E01", year := 2000, con_gdhi := 2,
     year_to_adjust := [], rollback_flag := false, lad_total := 10,
     non_outlier_total := some 10, gdhi_proportion := some (2/10),
     imputed_gdhi := none, adjusted_total := 10,
     adjusted_con_gdhi := some (11/2), min_adjusted_gdhi := some (-1),
     abs_adjustment_val := 1, over_adjusted_gdhi := some (13/2),
     readjusted_con_gdhi := some (65/14) },
   { lsoa_code := "E3", lad_code := "E01", year := 2000, con_gdhi := 3,
     year_to_adjust := [], rollback_flag := false, lad_total := 10,
     non_outlier_total := some 10, gdhi_proportion := some (3/10),
     imputed_gdhi := none, adjusted_total := 10,
     adjusted_con_gdhi := some (-1), min_adjusted_gdhi := some (-1),
     abs_adjustment_val := 1, over_adjusted_gdhi := some 0,
     readjusted_con_gdhi := some 0 },
   { lsoa_code := "E4", lad_code := "E01", year := 2000, con_gdhi := 4,
     year_to_adjust := [], rollback_flag := false, lad_total := 10,
     non_outlier_total := some 10, gdhi_proportion := some (4/10),
     imputed_gdhi := none, adjusted_total := 10,
     adjusted_con_gdhi := some 6, min_adjusted_gdhi := some (-1),
     abs_adjustment_val := 1, over_adjusted_gdhi := some 7,
     readjusted_con_gdhi := some 5 }]

/-- `rollbackRows exRollDf`, written out: both rows rollback-flagged, shares
`6/20` and `14/20` of `lad_total = 20`. -/
def exRollOut : List RollRow :=
  [{ lsoa_code := "E1", lad_code := "E01", year := 2014, con_gdhi := 5,
     year_to_adjust := [], rollback_flag := true, lad_total := 20,
     non_outlier_total := some 20, gdhi_proportion := some (1/4),
     imputed_gdhi := none, adjusted_total := 20,
     adjusted_con_gdhi := some 6, min_adjusted_gdhi := some 6,
     abs_adjustment_val := 0, over_adjusted_gdhi := some 6,
     readjusted_con_gdhi := some 6, rollback_con_gdhi := some 6 },
   { lsoa_code := "E2", lad_code := "E01", year := 2014, con_gdhi := 15,
     year_to_adjust := [], rollback_flag := true, lad_total := 20,
     non_outlier_total := some 20, gdhi_proportion := some (3/4),
     imputed_gdhi := none, adjusted_total := 20,
     adjusted_con_gdhi := some 14, min_adjusted_gdhi := some 6,
     abs_adjustment_val := 0, over_adjusted_gdhi := some 14,
     readjusted_con_gdhi := some 14, rollback_con_gdhi := some 14 }]

/-- The interpolation example series: entity `E1` with safe years `2000`
(value `10`) and `2003` (value `40`), years `2001` and `2002` flagged. -/
def exInterpDf : List InRow :=
  [{ lsoa_code := "E1", lad_code := "E01", year := 2000, con_gdhi := 10,
     year_to_adjust := [2001, 2002], rollback_flag := false },
   { lsoa_code := "E1", lad_code := "E01", year := 2001, con_gdhi := 100,
     year_to_adjust := [2001, 2002], rollback_flag := false },
   { lsoa_code := "E1", lad_code := "E01", year := 2002, con_gdhi := 100,
     year_to_adjust := [2001, 2002], rollback_flag := false },
   { lsoa_code := "E1", lad_code := "E01", year := 2003, con_gdhi := 40,
     year_to_adjust := [2001, 2002], rollback_flag := false }]

/-- The one-sided extrapolation example series: entity `E1` flagged at `2000`
(the start of the series), safe values `10` at `2001`, `11` at `2002` and
`30` at `2005`. -/
def exExtrapDf : List InRow :=
  [{ lsoa_code := "E1", lad_code := "E01", year := 2000, con_gdhi := 99,
     year_to_adjust := [2000], rollback_flag := false },
   { lsoa_code := "E1", lad_code := "E01", year := 2001, con_gdhi := 10,
     year_to_adjust := [2000], rollback_flag := false },
   { lsoa_code := "E1", lad_code := "E01", year := 2002, con_gdhi := 11,
     year_to_adjust := [2000], rollback_flag := false },
   { lsoa_code := "E1", lad_code := "E01", year := 2005, con_gdhi := 30,
     year_to_adjust := [2000], rollback_flag := false }]

/-- A degenerate-data table for the zero-denominator guard: the only
non-outlier row of `(E01, 2001)` has `con_gdhi = 0`. -/
def exZeroDf : List InRow :=
  [{ lsoa_code := "E1", lad_code := "E01", year := 2001, con_gdhi := 8,
     year_to_adjust := [2001], rollback_flag := false },
   { lsoa_code := "E2", lad_code := "E01", year := 2001, con_gdhi := 0,
     year_to_adjust := [], rollback_flag := false }]

/-- Two identical ratio-exactly-1 rows at the window boundary years `2014`
and `2015`. -/
def exBoundaryDf : List RateRow :=
  [{ lsoa_code := "E1", year := 2014, backward_pct_change := some 1,
     forward_pct_change := some (9/10) },
   { lsoa_code := "E1", year := 2015, backward_pct_change := some 1,
     forward_pct_change := some (9/10) }]

/-- An otherwise-flat three-point series with one extreme high outlier. -/
def exFlat3 : List (Option ℚ) :=
  [some 1, some 1, some 1000]

/-- A flat series of ten `1`s followed by an outlier `1000`: eleven points. -/
def exFlat11 : List (Option ℚ) :=
  (List.replicate 10 (some 1)) ++ [some 1000]

/-- A small flag table for the master-flag aggregator: entity `E1` has a
single `z_bkwd` flag in one year, entity `E2` has none. -/
def exMasterDf : List ScoreRow :=
  [{ lsoa_code := "E1", year := 2001, z_bkwd_flag := true,
     z_frwd_flag := false, z_raw_flag := false, iqr_bkwd_flag := false,
     iqr_frwd_flag := false, iqr_raw_flag := false },
   { lsoa_code := "E1", year := 2002, z_bkwd_flag := false,
     z_frwd_flag := false, z_raw_flag := false, iqr_bkwd_flag := false,
     iqr_frwd_flag := false, iqr_raw_flag := false },
   { lsoa_code := "E2", year := 2001, z_bkwd_flag := false,
     z_frwd_flag := false, z_raw_flag := false, iqr_bkwd_flag := false,
     iqr_frwd_flag := false, iqr_raw_flag := false }]

/-- The first row of `create_master_flag exMasterDf`, written out. -/
def exMasterRow0 : MasterRow :=
  { lsoa_code := "E1", year := 2001, z_bkwd_flag := true,
    z_frwd_flag := false, z_raw_flag := false, iqr_bkwd_flag := false,
    iqr_frwd_flag := false, iqr_raw_flag := false, master_z_flag := true,
    master_iqr_flag := false, master_flag := true }

/-! ## Helper lemmas -/

/-- If `sum_match_check` does not raise, every `(lad_code, year)` group's
adjusted sum is within tolerance of its unadjusted sum (a group absent from
the table has both sums `0`). -/
theorem sumMatchFails_eq_false {α : Type} {df : List α} {lad : α → String}
    {year : α → Int} {u : α → ℚ} {a : α → Option ℚ} {tol : ℚ}
    (htol : 0 ≤ tol) (h : sumMatchFails df lad year u a tol = false)
    (l : String) (y : Int) :
    |groupSumQ df lad year u l y - groupSumOpt df lad year a l y| ≤ tol := by
  by_cases hex : ∃ r ∈ df, lad r = l ∧ year r = y
  · obtain ⟨r, hr, hl, hy⟩ := hex
    rw [sumMatchFails, List.any_eq_false] at h
    have h2 := h r hr
    simp only [Bool.not_eq_true', decide_eq_false_iff_not, not_not,
      Bool.not_eq_false, decide_eq_true_eq] at h2
    rwa [hl, hy] at h2
  · have hfil : df.filter (fun s => lad s == l && year s == y) = [] := by
      rw [List.filter_eq_nil_iff]
      intro s hs hc
      simp only [Bool.and_eq_true, beq_iff_eq] at hc
      exact hex ⟨s, hs, hc.1, hc.2⟩
    rw [groupSumQ, groupSumOpt, hfil]
    simpa [optSum] using htol

theorem scanDownAux_le (l : List Int) (fuel : Nat) (y : Int) :
    scanDownAux l fuel y ≤ y := by
  induction fuel generalizing y with
  | zero => exact le_refl y
  | succ n ih =>
    simp only [scanDownAux]
    split
    · exact le_trans (ih (y - 1)) (by omega)
    · exact le_refl y

theorem scanDownAux_between (l : List Int) (fuel : Nat) (y : Int) :
    ∀ z : Int, scanDownAux l fuel y < z → z ≤ y → z ∈ l := by
  induction fuel generalizing y with
  | zero =>
    intro z h1 h2
    simp only [scanDownAux] at h1
    exact absurd (h1.trans_le h2) (lt_irrefl y)
  | succ n ih =>
    intro z h1 h2
    simp only [scanDownAux] at h1
    by_cases hm : y ∈ l
    · rw [if_pos hm] at h1
      by_cases hz : z = y
      · exact hz ▸ hm
      · exact ih (y - 1) z h1 (by omega)
    · rw [if_neg hm] at h1
      exact absurd (h1.trans_le h2) (lt_irrefl y)

theorem scanDownAux_exit (l : List Int) (fuel : Nat) (y : Int) :
    scanDownAux l fuel y ∉ l ∨ scanDownAux l fuel y = y - fuel := by
  induction fuel generalizing y with
  | zero => right; simp [scanDownAux]
  | succ n ih =>
    simp only [scanDownAux]
    by_cases hm : y ∈ l
    · rw [if_pos hm]
      rcases ih (y - 1) with h | h
      · exact Or.inl h
      · right
        rw [h]
        push_cast
        ring
    · rw [if_neg hm]
      exact Or.inl hm

theorem scanUpAux_ge (l : List Int) (fuel : Nat) (y : Int) :
    y ≤ scanUpAux l fuel y := by
  induction fuel generalizing y with
  | zero => exact le_refl y
  | succ n ih =>
    simp only [scanUpAux]
    split
    · exact le_trans (by omega) (ih (y + 1))
    · exact le_refl y

theorem scanUpAux_between (l : List Int) (fuel : Nat) (y : Int) :
    ∀ z : Int, y ≤ z → z < scanUpAux l fuel y → z ∈ l := by
  induction fuel generalizing y with
  | zero =>
    intro z h1 h2
    simp only [scanUpAux] at h2
    exact absurd (h1.trans_lt h2) (lt_irrefl y)
  | succ n ih =>
    intro z h1 h2
    simp only [scanUpAux] at h2
    by_cases hm : y ∈ l
    · rw [if_pos hm] at h2
      by_cases hz : z = y
      · exact hz ▸ hm
      · exact ih (y + 1) z (by omega) h2
    · rw [if_neg hm] at h2
      exact absurd (h1.trans_lt h2) (lt_irrefl y)

theorem scanUpAux_exit (l : List Int) (fuel : Nat) (y : Int) :
    scanUpAux l fuel y ∉ l ∨ scanUpAux l fuel y = y + fuel := by
  induction fuel generalizing y with
  | zero => right; simp [scanUpAux]
  | succ n ih =>
    simp only [scanUpAux]
    by_cases hm : y ∈ l
    · rw [if_pos hm]
      rcases ih (y + 1) with h | h
      · exact Or.inl h
      · right
        rw [h]
        push_cast
        ring
    · rw [if_neg hm]
      exact Or.inl hm

theorem scanDown_le (l : List Int) (b y : Int) : scanDown l b y ≤ y :=
  scanDownAux_le l _ y

theorem scanDown_between (l : List Int) (b y : Int) :
    ∀ z : Int, scanDown l b y < z → z ≤ y → z ∈ l :=
  scanDownAux_between l _ y

theorem scanDown_not_mem_or (l : List Int) (b y : Int) :
    scanDown l b y ∉ l ∨ scanDown l b y < b := by
  rcases scanDownAux_exit l ((y + 1 - b).toNat) y with h | h
  · exact Or.inl h
  · right
    rw [scanDown, h]
    omega

theorem scanUp_ge (l : List Int) (b y : Int) : y ≤ scanUp l b y :=
  scanUpAux_ge l _ y

theorem scanUp_between (l : List Int) (b y : Int) :
    ∀ z : Int, y ≤ z → z < scanUp l b y → z ∈ l :=
  scanUpAux_between l _ y

theorem scanUp_not_mem_or (l : List Int) (b y : Int) :
    scanUp l b y ∉ l ∨ b < scanUp l b y := by
  rcases scanUpAux_exit l ((b + 1 - y).toNat) y with h | h
  · exact Or.inl h
  · right
    rw [scanUp, h]
    omega

theorem optSum_cons (x : Option ℚ) (xs : List (Option ℚ)) :
    optSum (x :: xs) = x.getD 0 + optSum xs := by
  cases x <;> simp [optSum, List.filterMap_cons]

/-- NaN entries contribute nothing to a NaN-skipping sum: restricting the
rows to those whose value is defined leaves the sum unchanged. -/
theorem optSum_map_filter_isSome {α : Type} (l : List α) (f : α → Option ℚ) :
    optSum (l.map f) =
      optSum ((l.filter (fun s => (f s).isSome)).map f) := by
  induction l with
  | nil => rfl
  | cons hd tl ih =>
    rw [List.map_cons, optSum_cons, List.filter_cons]
    by_cases hs : (f hd).isSome
    · rw [if_pos (by simpa using hs), List.map_cons, optSum_cons, ih]
    · rw [if_neg (by simpa using hs), ih]
      cases hfd : f hd
      · simp
      · exact absurd (by simp [hfd]) hs

theorem mul_length_le_sum (v : ℚ) :
    ∀ l : List ℚ, (∀ u ∈ l, v ≤ u) → v * l.length ≤ l.sum := by
  intro l
  induction l with
  | nil => simp
  | cons hd tl ih =>
    intro h
    have h1 := h hd (List.mem_cons_self hd tl)
    have h2 := ih (fun u hu => h u (List.mem_cons_of_mem hd hu))
    simp only [List.sum_cons, List.length_cons]
    push_cast
    nlinarith

theorem filterMap_id_replicate (k : Nat) (v : ℚ) :
    (List.replicate k (some v)).filterMap id = List.replicate k v := by
  induction k with
  | zero => rfl
  | succ n ih => simp [List.replicate_succ, ih]

/-- The square-root-free encoding of the z-score flag agrees with the
`score > 3.0` condition of the source, with the score read over the reals:
for a defined cell, the flag is set exactly when the group has at least two
observations, a positive sample variance, and a standardized score above
`3`. -/
theorem zFlag_iff_score (xs : List (Option ℚ)) (v : ℚ) :
    zFlag xs (some v) = true ↔
      (2 ≤ (obsVals xs).length ∧ 0 < sampleVar (obsVals xs) ∧
        3 < ((v - groupMean (obsVals xs) : ℚ) : ℝ) /
          Real.sqrt ((sampleVar (obsVals xs) : ℚ) : ℝ)) := by
  rw [zFlag, decide_eq_true_eq]
  constructor
  · rintro ⟨h2, hvar, hdev, hsq⟩
    refine ⟨h2, hvar, ?_⟩
    have hvR : (0 : ℝ) < ((sampleVar (obsVals xs) : ℚ) : ℝ) := by
      exact_mod_cast hvar
    have hs : 0 < Real.sqrt ((sampleVar (obsVals xs) : ℚ) : ℝ) :=
      Real.sqrt_pos.mpr hvR
    rw [lt_div_iff₀ hs]
    have hdevR : (0 : ℝ) < ((v - groupMean (obsVals xs) : ℚ) : ℝ) := by
      exact_mod_cast hdev
    have hsqR : (9 : ℝ) * ((sampleVar (obsVals xs) : ℚ) : ℝ) <
        ((v - groupMean (obsVals xs) : ℚ) : ℝ) ^ 2 := by
      exact_mod_cast hsq
    nlinarith [Real.sq_sqrt hvR.le, hs, hdevR, hsqR]
  · rintro ⟨h2, hvar, hscore⟩
    have hvR : (0 : ℝ) < ((sampleVar (obsVals xs) : ℚ) : ℝ) := by
      exact_mod_cast hvar
    have hs : 0 < Real.sqrt ((sampleVar (obsVals xs) : ℚ) : ℝ) :=
      Real.sqrt_pos.mpr hvR
    rw [lt_div_iff₀ hs] at hscore
    have hdevR : (0 : ℝ) < ((v - groupMean (obsVals xs) : ℚ) : ℝ) :=
      lt_trans (by positivity) hscore
    have hdev : 0 < v - groupMean (obsVals xs) := by exact_mod_cast hdevR
    refine ⟨h2, hvar, hdev, ?_⟩
    have hcast : ((9 * sampleVar (obsVals xs) : ℚ) : ℝ) <
        (((v - groupMean (obsVals xs)) ^ 2 : ℚ) : ℝ) := by
      push_cast
      push_cast at hscore
      nlinarith [Real.sq_sqrt hvR.le, hs, hscore]
    exact_mod_cast hcast

/-! ## Claims -/

/-- C1: each of the three apportionment operations (`apportion_adjustment`,
`apportion_negative_adjustment`, `apportion_rollback_years`) either returns a
table in which, for every `(lad_code, year)` partition, the (NaN-skipping)
sum of its adjusted value column matches the sum of the original constrained
values `con_gdhi` over that partition within `1e-6` absolute tolerance, or
raises; the check is performed after each of the three transformations. -/
theorem C1_apportion_sum_invariant :
    (∀ (df : List PropRow) (imputed : List ImpRow) (out : List AdjRow),
        apportion_adjustment df imputed = .ok out →
        ∀ (l : String) (y : Int),
          |groupSumQ out (·.lad_code) (·.year) (·.con_gdhi) l y -
              groupSumOpt out (·.lad_code) (·.year) (·.adjusted_con_gdhi)
                l y| ≤ sumTolerance) ∧
    (∀ (df : List AdjRow) (out : List NegRow),
        apportion_negative_adjustment df = .ok out →
        ∀ (l : String) (y : Int),
          |groupSumQ out (·.lad_code) (·.year) (·.con_gdhi) l y -
              groupSumOpt out (·.lad_code) (·.year) (·.readjusted_con_gdhi)
                l y| ≤ sumTolerance) ∧
    (∀ (df : List NegRow) (out : List RollRow),
        apportion_rollback_years df = .ok out →
        ∀ (l : String) (y : Int),
          |groupSumQ out (·.lad_code) (·.year) (·.con_gdhi) l y -
              groupSumOpt out (·.lad_code) (·.year) (·.rollback_con_gdhi)
                l y| ≤ sumTolerance) := by
  refine ⟨?_, ?_, ?_⟩
  · intro df imputed out h l y
    rw [apportion_adjustment] at h
    split at h
    · exact absurd h (by simp)
    · rw [Except.ok.injEq] at h
      subst h
      rename_i hc
      simp only [Bool.not_eq_true] at hc
      exact sumMatchFails_eq_false (by norm_num [sumTolerance]) hc l y
  · intro df out h l y
    rw [apportion_negative_adjustment] at h
    split at h
    · exact absurd h (by simp)
    · split at h
      · exact absurd h (by simp)
      · rw [Except.ok.injEq] at h
        subst h
        rename_i hc
        simp only [Bool.not_eq_true] at hc
        exact sumMatchFails_eq_false (by norm_num [sumTolerance]) hc l y
  · intro df out h l y
    rw [apportion_rollback_years] at h
    split at h
    · exact absurd h (by simp)
    · rw [Except.ok.injEq] at h
      subst h
      rename_i hc
      simp only [Bool.not_eq_true] at hc
      exact sumMatchFails_eq_false (by norm_num [sumTolerance]) hc l y

/-- Witness for C1 at the concrete scenario tables: all three operations
return successfully and the group sums match within tolerance. -/
theorem C1_apportion_sum_invariant_witness :
    |groupSumQ exScenarioOut (·.lad_code) (·.year) (·.con_gdhi) "E01" 2002 -
        groupSumOpt exScenarioOut (·.lad_code) (·.year)
          (·.adjusted_con_gdhi) "E01" 2002| ≤ sumTolerance ∧
    |groupSumQ exNegOut (·.lad_code) (·.year) (·.con_gdhi) "E01" 2000 -
        groupSumOpt exNegOut (·.lad_code) (·.year)
          (·.readjusted_con_gdhi) "E01" 2000| ≤ sumTolerance ∧
    |groupSumQ exRollOut (·.lad_code) (·.year) (·.con_gdhi) "E01" 2014 -
        groupSumOpt exRollOut (·.lad_code) (·.year)
          (·.rollback_con_gdhi) "E01" 2014| ≤ sumTolerance :=
  ⟨C1_apportion_sum_invariant.1 exScenarioProps exScenarioImp exScenarioOut
      (by with_unfolding_all rfl) "E01" 2002,
   C1_apportion_sum_invariant.2.1 exNegDf exNegOut
      (by with_unfolding_all rfl) "E01" 2000,
   C1_apportion_sum_invariant.2.2 exRollDf exRollOut
      (by with_unfolding_all rfl) "E01" 2014⟩

/-- C2: for every row, the apportionment step sets `adjusted_con_gdhi` to the
imputed value where one is defined and otherwise to `gdhi_proportion` times
the adjusted total (the group's `lad_total` minus the group sum of imputed
values); in particular, on the scenario group `E01`/`2002` with constrained
values `3, 9, 8` where only entity `E3` is flagged with imputed value `5`,
the adjusted values are `3.75, 11.25, 5`, summing to the original `20`. -/
theorem C2_apportionment_formula :
    (∀ (df : List PropRow) (imputed : List ImpRow) (out : List AdjRow),
        apportion_adjustment df imputed = .ok out →
        ∀ r ∈ out,
          r.imputed_gdhi = lookupImputed imputed r.lsoa_code r.year ∧
          r.adjusted_total =
            r.lad_total - imputedGroupSum df imputed r.lad_code r.year ∧
          (∀ v : ℚ, r.imputed_gdhi = some v → r.adjusted_con_gdhi = some v) ∧
          (r.imputed_gdhi = none →
            r.adjusted_con_gdhi =
              r.gdhi_proportion.map (fun p => p * r.adjusted_total))) ∧
    calc_non_outlier_proportions exScenarioDf = .ok exScenarioProps ∧
    apportion_adjustment exScenarioProps exScenarioImp = .ok exScenarioOut ∧
    exScenarioOut.map (·.adjusted_con_gdhi) =
      [some (15/4), some (45/4), some 5] ∧
    groupSumOpt exScenarioOut (·.lad_code) (·.year) (·.adjusted_con_gdhi)
      "E01" 2002 = 20 := by
  refine ⟨?_, by with_unfolding_all rfl, by with_unfolding_all rfl,
    by with_unfolding_all rfl, by with_unfolding_all rfl⟩
  intro df imputed out h r hr
  have hout : out = apportionAdjustmentRows df imputed := by
    rw [apportion_adjustment] at h
    split at h
    · exact absurd h (by simp)
    · rw [Except.ok.injEq] at h
      exact h.symm
  subst hout
  rw [apportionAdjustmentRows] at hr
  obtain ⟨r0, hr0, rfl⟩ := List.mem_map.mp hr
  refine ⟨rfl, rfl, ?_, ?_⟩
  · intro v hv
    dsimp only at hv ⊢
    rw [hv]
  · intro hv
    dsimp only at hv ⊢
    rw [hv]

/-- The third row of `exScenarioOut` (entity `E3`, the imputed one). -/
def exScenarioOutE3 : AdjRow :=
  { lsoa_code := "E3", lad_code := "E01", year := 2002, con_gdhi := 8,
    year_to_adjust := [2002], rollback_flag := false, lad_total := 20,
    non_outlier_total := none, gdhi_proportion := none,
    imputed_gdhi := some 5, adjusted_total := 15,
    adjusted_con_gdhi := some 5 }

/-- Witness for C2 at the scenario tables: the imputed entity's adjusted
value equals its imputed value. -/
theorem C2_apportionment_formula_witness :
    exScenarioOutE3.adjusted_con_gdhi = some 5 :=
  (C2_apportionment_formula.1 exScenarioProps exScenarioImp exScenarioOut
      (by with_unfolding_all rfl) exScenarioOutE3
      (by with_unfolding_all decide)).2.2.1 5 (by with_unfolding_all rfl)

/-- C3: negative elimination computes, per `(lad_code, year)` partition, the
offset `|min|` when the group's minimum adjusted value is negative and `0`
otherwise, adds it to every member, renormalises the group by
`group_total / sum(offset-shifted values)` (where `lad_total` is the group's
`con_gdhi` sum), raises if any final value is still negative, and otherwise
the group sum matches the group total within `1e-6` (or it raises); on the
scenario group `-0.5, 5.5, -1, 6` (total `10`) the shifted values are
`0.5, 6.5, 0, 7` and the final values are those scaled by `10/14`, with no
negatives and sum `10`. -/
theorem C3_negative_elimination :
    (∀ (df : List AdjRow) (out : List NegRow),
        apportion_negative_adjustment df = .ok out →
        (∀ r ∈ df, r.lad_total =
            groupSumQ df (·.lad_code) (·.year) (·.con_gdhi)
              r.lad_code r.year) →
        (∀ r ∈ out,
          r.min_adjusted_gdhi = groupMinAdjusted df r.lad_code r.year ∧
          r.abs_adjustment_val =
            absAdjustmentVal (groupMinAdjusted df r.lad_code r.year) ∧
          r.over_adjusted_gdhi =
            r.adjusted_con_gdhi.map (fun v => v + r.abs_adjustment_val) ∧
          r.readjusted_con_gdhi =
            (divNaN r.over_adjusted_gdhi
              (some (overAdjustedSum df r.lad_code r.year
                r.abs_adjustment_val))).map
              (fun q => q *
                groupSumQ df (·.lad_code) (·.year) (·.con_gdhi)
                  r.lad_code r.year) ∧
          (∀ v : ℚ, r.readjusted_con_gdhi = some v → 0 ≤ v)) ∧
        (∀ (l : String) (y : Int),
          |groupSumQ out (·.lad_code) (·.year) (·.con_gdhi) l y -
              groupSumOpt out (·.lad_code) (·.year) (·.readjusted_con_gdhi)
                l y| ≤ sumTolerance)) ∧
    apportion_negative_adjustment exNegDf = .ok exNegOut ∧
    exNegOut.map (·.over_adjusted_gdhi) =
      [some (1/2), some (13/2), some 0, some 7] ∧
    exNegOut.map (·.readjusted_con_gdhi) =
      [some ((1/2) * (10/14)), some ((13/2) * (10/14)), some 0,
        some (7 * (10/14))] ∧
    groupSumOpt exNegOut (·.lad_code) (·.year) (·.readjusted_con_gdhi)
      "E01" 2000 = 10 := by
  refine ⟨?_, by with_unfolding_all rfl, by with_unfolding_all rfl,
    by with_unfolding_all rfl, by with_unfolding_all rfl⟩
  intro df out h hlt
  rw [apportion_negative_adjustment] at h
  split at h
  · exact absurd h (by simp)
  · rename_i hneg
    split at h
    · exact absurd h (by simp)
    · rename_i hsum
      rw [Except.ok.injEq] at h
      subst h
      simp only [Bool.not_eq_true] at hneg hsum
      constructor
      · intro r hr
        have hmem := hr
        rw [negAdjustmentRows] at hr
        obtain ⟨r0, hr0, rfl⟩ := List.mem_map.mp hr
        have hltr := hlt r0 hr0
        refine ⟨rfl, rfl, rfl, ?_, ?_⟩
        · dsimp only
          rw [← hltr]
        · intro v hv
          rw [List.any_eq_false] at hneg
          have hpred := hneg _ hmem
          rw [hv] at hpred
          simp only [Bool.not_eq_true, decide_eq_false_iff_not] at hpred
          exact le_of_not_lt hpred
      · exact fun l y =>
          sumMatchFails_eq_false (by norm_num [sumTolerance]) hsum l y

/-- The first row of `exNegOut` (entity `E1`). -/
def exNegOutE1 : NegRow :=
  { lsoa_code := "E1", lad_code := "E01", year := 2000, con_gdhi := 1,
    year_to_adjust := [], rollback_flag := false, lad_total := 10,
    non_outlier_total := some 10, gdhi_proportion := some (1/10),
    imputed_gdhi := none, adjusted_total := 10,
    adjusted_con_gdhi := some (-(1/2)), min_adjusted_gdhi := some (-1),
    abs_adjustment_val := 1, over_adjusted_gdhi := some (1/2),
    readjusted_con_gdhi := some (5/14) }

/-- Witness for C3 at the scenario table: entity `E1`'s final value `5/14`
is nonnegative, via the general theorem. -/
theorem C3_negative_elimination_witness : (0 : ℚ) ≤ 5/14 ∧
    exNegOutE1.readjusted_con_gdhi = some (5/14) :=
  ⟨((C3_negative_elimination.1 exNegDf exNegOut (by with_unfolding_all rfl)
      (by
        intro r hr
        simp only [exNegDf, List.mem_cons, List.not_mem_nil, or_false] at hr
        rcases hr with rfl | rfl | rfl | rfl <;> with_unfolding_all rfl)).1
      exNegOutE1 (by with_unfolding_all decide)).2.2.2.2 (5/14)
      (by with_unfolding_all rfl),
   by with_unfolding_all rfl⟩

/-- A row's `non_outlier_total` column is a defined zero exactly when the row
is a non-outlier row of a partition whose non-outlier sum is zero. -/
theorem nonOutlierTotal_eq_some_zero {df : List InRow} {r : InRow} :
    nonOutlierTotal df r = some 0 ↔
      (isOutlier r = false ∧ nonOutlierSum df r.lad_code r.year = 0) := by
  rw [nonOutlierTotal]
  by_cases ho : isOutlier r = true
  · simp [ho]
  · simp only [Bool.not_eq_true] at ho
    simp [ho]

/-- The offending pairs collected by the guard are exactly the partitions
with a (defined) zero non-outlier total. -/
theorem mem_zeroNonOutlierPairs (df : List InRow) (p : String × Int) :
    p ∈ zeroNonOutlierPairs df ↔ partitionZeroNonOutlier df p.1 p.2 := by
  rw [zeroNonOutlierPairs, List.mem_dedup, List.mem_map]
  constructor
  · rintro ⟨r, hrf, rfl⟩
    rw [List.mem_filter] at hrf
    obtain ⟨hrdf, hz⟩ := hrf
    rw [beq_iff_eq] at hz
    obtain ⟨ho, hs⟩ := nonOutlierTotal_eq_some_zero.mp hz
    exact ⟨⟨r, hrdf, rfl, rfl, ho⟩, hs⟩
  · rintro ⟨⟨r, hrdf, hl, hy, ho⟩, hs⟩
    refine ⟨r, ?_, by rw [hl, hy]⟩
    rw [List.mem_filter]
    refine ⟨hrdf, ?_⟩
    rw [beq_iff_eq]
    apply nonOutlierTotal_eq_some_zero.mpr
    exact ⟨ho, by rw [hl, hy]; exact hs⟩

/-- C4: the non-outlier proportion calculation raises if and only if some
`(lad_code, year)` partition has a (defined) zero non-outlier total; the
error enumerates exactly the offending pairs; and on success every row's
`gdhi_proportion` is its `con_gdhi` divided by its (possibly undefined)
`non_outlier_total`. -/
theorem C4_zero_denominator_guard :
    ∀ df : List InRow,
      ((∃ e, calc_non_outlier_proportions df = .error e) ↔
        ∃ (l : String) (y : Int), partitionZeroNonOutlier df l y) ∧
      (∀ e, calc_non_outlier_proportions df = .error e →
        ∀ p : String × Int, p ∈ e ↔ partitionZeroNonOutlier df p.1 p.2) ∧
      (∀ out, calc_non_outlier_proportions df = .ok out →
        ∀ r ∈ out,
          r.non_outlier_total = nonOutlierTotal df r.toInRow ∧
          r.gdhi_proportion =
            r.non_outlier_total.map (fun t => r.con_gdhi / t)) := by
  intro df
  refine ⟨?_, ?_, ?_⟩
  · rw [calc_non_outlier_proportions]
    by_cases hbad : (zeroNonOutlierPairs df).isEmpty
    · rw [if_pos hbad]
      constructor
      · rintro ⟨e, he⟩
        exact absurd he (by simp)
      · rintro ⟨l, y, hlz⟩
        exfalso
        have hmem : (l, y) ∈ zeroNonOutlierPairs df :=
          (mem_zeroNonOutlierPairs df (l, y)).mpr hlz
        rw [List.isEmpty_iff] at hbad
        rw [hbad] at hmem
        exact absurd hmem (List.not_mem_nil _)
    · rw [if_neg hbad]
      constructor
      · rintro ⟨e, _⟩
        have hne : zeroNonOutlierPairs df ≠ [] := by
          simpa [List.isEmpty_iff] using hbad
        obtain ⟨p, hp⟩ := List.exists_mem_of_ne_nil _ hne
        exact ⟨p.1, p.2, (mem_zeroNonOutlierPairs df p).mp hp⟩
      · intro _
        exact ⟨zeroNonOutlierPairs df, rfl⟩
  · intro e he p
    rw [calc_non_outlier_proportions] at he
    split at he
    · exact absurd he (by simp)
    · rw [Except.error.injEq] at he
      subst he
      exact mem_zeroNonOutlierPairs df p
  · intro out hout r hr
    rw [calc_non_outlier_proportions] at hout
    split at hout
    · rw [Except.ok.injEq] at hout
      subst hout
      rw [propRows] at hr
      obtain ⟨r0, hr0, rfl⟩ := List.mem_map.mp hr
      exact ⟨rfl, rfl⟩
    · exact absurd hout (by simp)

/-- Witness for C4 at the degenerate table: the guard raises and names
`(E01, 2001)`, which indeed has a zero non-outlier total. -/
theorem C4_zero_denominator_guard_witness :
    partitionZeroNonOutlier exZeroDf "E01" 2001 :=
  ((C4_zero_denominator_guard exZeroDf).2.1 [("E01", 2001)]
      (by with_unfolding_all rfl) ("E01", 2001)).mp (by decide)

/-- C5: for every flagged row, imputation scans backward from the year down
to the `start_year` floor and forward up to the `end_year` ceiling, skipping
years in `year_to_adjust`, to find the nearest safe years (every skipped
intermediate year is flagged, and the year found is unflagged whenever the
bound was not exhausted); the safe values are looked up by
`(lsoa_code, safe_year)`; and when both safe values are defined (and the row
is not rollback-flagged), the imputed value is the linear interpolation of
`con_gdhi` between the two safe points evaluated at the flagged year — e.g.
`prev = (2000, 10)`, `next = (2003, 40)`, year `2001` gives `20`. -/
theorem C5_interpolation :
    (∀ (df : List InRow) (s e : Int), ∀ t ∈ calc_imputed_val df s e,
      isOutlier t.toInRow = true ∧
      t.prev_safe_year =
        increment_until_not_in t.year t.year_to_adjust s false ∧
      t.next_safe_year =
        increment_until_not_in t.year t.year_to_adjust e true ∧
      t.prev_con_gdhi = lookupCon df t.lsoa_code t.prev_safe_year ∧
      t.next_con_gdhi = lookupCon df t.lsoa_code t.next_safe_year ∧
      t.prev_safe_year ≤ t.year ∧
      (∀ z : Int, t.prev_safe_year < z → z ≤ t.year →
        z ∈ t.year_to_adjust) ∧
      (s ≤ t.prev_safe_year → t.prev_safe_year ∉ t.year_to_adjust) ∧
      t.year ≤ t.next_safe_year ∧
      (∀ z : Int, t.year ≤ z → z < t.next_safe_year →
        z ∈ t.year_to_adjust) ∧
      (t.next_safe_year ≤ e → t.next_safe_year ∉ t.year_to_adjust) ∧
      (t.rollback_flag = false →
        ∀ a b : ℚ, t.prev_con_gdhi = some a → t.next_con_gdhi = some b →
          t.prev_safe_year ≠ t.next_safe_year →
          t.imputed_gdhi = some ((b - a) /
            ((t.next_safe_year : ℚ) - (t.prev_safe_year : ℚ)) *
            ((t.year : ℚ) - (t.prev_safe_year : ℚ)) + a))) ∧
    (calc_imputed_val exInterpDf 1990 2010).map (·.imputed_gdhi) =
      [some 20, some 30] := by
  refine ⟨?_, by with_unfolding_all rfl⟩
  intro df s e t ht
  rw [calc_imputed_val] at ht
  obtain ⟨r0, hr0, rfl⟩ := List.mem_map.mp ht
  rw [List.mem_filter] at hr0
  obtain ⟨hr0df, hout⟩ := hr0
  refine ⟨hout, rfl, rfl, rfl, rfl, ?_, ?_, ?_, ?_, ?_, ?_, ?_⟩
  · exact scanDownAux_le _ _ _
  · exact fun z h1 h2 => scanDownAux_between _ _ _ z h1 h2
  · intro hs
    have hs' : s ≤ scanDown r0.year_to_adjust s r0.year := hs
    rcases scanDown_not_mem_or r0.year_to_adjust s r0.year with h | h
    · exact h
    · omega
  · exact scanUpAux_ge _ _ _
  · exact fun z h1 h2 => scanUpAux_between _ _ _ z h1 h2
  · intro hs
    have hs' : scanUp r0.year_to_adjust e r0.year ≤ e := hs
    rcases scanUp_not_mem_or r0.year_to_adjust e r0.year with h | h
    · exact h
    · omega
  · intro _hrb a b ha hb hne
    dsimp only [imputedRow] at ha hb hne ⊢
    have hz : ((increment_until_not_in r0.year r0.year_to_adjust e true :
        Int) : ℚ) - ((increment_until_not_in r0.year r0.year_to_adjust s
        false : Int) : ℚ) ≠ 0 := by
      rw [sub_ne_zero]
      intro hc
      exact hne (by exact_mod_cast hc.symm)
    rw [ha, hb]
    dsimp only
    simp only [divNaN]
    rw [if_neg hz]
    simp only [Option.map_some']

/-- The first output row of `calc_imputed_val exInterpDf 1990 2010` (the
flagged year `2001`), written out. -/
def exInterpRow2001 : ImputedRow :=
  { lsoa_code := "E1", lad_code := "E01", year := 2001, con_gdhi := 100,
    year_to_adjust := [2001, 2002], rollback_flag := false,
    prev_safe_year := 2000, prev_con_gdhi := some 10,
    next_safe_year := 2003, next_con_gdhi := some 40,
    imputed_gdhi := some 20 }

/-- Witness for C5: on the example series the flagged year `2001` is imputed
by interpolation between `(2000, 10)` and `(2003, 40)` to `20`. -/
theorem C5_interpolation_witness : exInterpRow2001.imputed_gdhi = some 20 := by
  obtain ⟨-, -, -, -, -, -, -, -, -, -, -, hinterp⟩ :=
    C5_interpolation.1 exInterpDf 1990 2010 exInterpRow2001
      (by with_unfolding_all decide)
  rw [hinterp rfl 10 40 (by with_unfolding_all rfl)
    (by with_unfolding_all rfl) (by decide)]
  with_unfolding_all rfl

/-- C6 counterexample: on the series flagged only at `2000`, the single
available safe year is `2001` (forward side; the backward value is
undefined).  The code extrapolates from the value one year beyond the safe
year (`2002`, giving `10 - (11 - 10) * 1 = 9`), not from a reference year 4
years beyond it as the claim states (which from `2005` would give
`10 + (30 - 10)/4 * (2000 - 2001) = 5`). -/
theorem C6_counterexample :
    (calc_imputed_val exExtrapDf 1990 2010).map (·.prev_con_gdhi) =
      [none] ∧
    (calc_imputed_val exExtrapDf 1990 2010).map (·.next_safe_year) =
      [2001] ∧
    (calc_imputed_val exExtrapDf 1990 2010).map (·.imputed_gdhi) =
      [some 9] ∧
    specFourYearExtrap exExtrapDf "E1" 2000 2001 = some 5 ∧
    some (9 : ℚ) ≠ some (5 : ℚ) := by
  refine ⟨by with_unfolding_all rfl, by with_unfolding_all rfl,
    by with_unfolding_all rfl, by with_unfolding_all rfl, by norm_num⟩

/-- C6 amended: for every flagged row with a safe year found on only one
side, imputation locates one additional reference year 1 year beyond the
single available safe year (`next_safe_year + 1` resp. `prev_safe_year - 1`)
and linearly extrapolates using the slope between the safe year's value and
that adjacent reference year's value. -/
theorem C6_one_sided_extrapolation :
    ∀ (df : List InRow) (s e : Int), ∀ t ∈ calc_imputed_val df s e,
      (t.prev_con_gdhi = none →
        ∀ b w : ℚ, t.next_con_gdhi = some b →
          lookupCon df t.lsoa_code (t.next_safe_year + 1) = some w →
          t.imputed_gdhi =
            some (b - (w - b) * ((t.next_safe_year : ℚ) - (t.year : ℚ)))) ∧
      (t.next_con_gdhi = none →
        ∀ a w : ℚ, t.prev_con_gdhi = some a →
          lookupCon df t.lsoa_code (t.prev_safe_year - 1) = some w →
          t.imputed_gdhi =
            some (a + (a - w) * ((t.year : ℚ) - (t.prev_safe_year : ℚ)))) := by
  intro df s e t ht
  rw [calc_imputed_val] at ht
  obtain ⟨r0, hr0, rfl⟩ := List.mem_map.mp ht
  constructor
  · intro hpn b w hb hw
    dsimp only [imputedRow] at hpn hb hw ⊢
    rw [hpn, hb]
    dsimp only
    simp only [Option.isNone_none, Option.isNone_some, if_true,
      Option.some_bind]
    rw [hw]
    simp only [Option.map_some']
  · intro hnn a w ha hw
    dsimp only [imputedRow] at hnn ha hw ⊢
    rw [hnn, ha]
    dsimp only
    simp only [Option.isNone_none, Option.isNone_some, if_true,
      Bool.false_eq_true, if_false, Option.some_bind]
    rw [hw]
    simp only [Option.map_some']

/-- The output row of `calc_imputed_val exExtrapDf 1990 2010`, written
out. -/
def exExtrapRow2000 : ImputedRow :=
  { lsoa_code := "E1", lad_code := "E01", year := 2000, con_gdhi := 99,
    year_to_adjust := [2000], rollback_flag := false,
    prev_safe_year := 1999, prev_con_gdhi := none,
    next_safe_year := 2001, next_con_gdhi := some 10,
    imputed_gdhi := some 9 }

/-- Witness for the amended C6: on the example series the forward-only
extrapolation from `(2001, 10)` with the adjacent value `(2002, 11)` gives
`9`. -/
theorem C6_one_sided_extrapolation_witness :
    exExtrapRow2000.imputed_gdhi = some 9 := by
  obtain ⟨hfwd, -⟩ :=
    C6_one_sided_extrapolation exExtrapDf 1990 2010 exExtrapRow2000
      (by with_unfolding_all decide)
  rw [hfwd (by with_unfolding_all rfl) 10 11 (by with_unfolding_all rfl)
    (by with_unfolding_all rfl)]
  with_unfolding_all rfl

/-- C7 counterexample: on the scenario table entity `E3` is flagged at its
only year `2002`, so imputation finds no safe value on either side and its
imputed value stays undefined; apportionment returns successfully, but the
row's adjusted value is NaN (`none`), not its original constrained value `8`
— the row does not pass through unmodified. -/
theorem C7_counterexample :
    (calc_imputed_val exScenarioDf 1990 2100).map (·.imputed_gdhi) =
      [none] ∧
    (runApportionment exScenarioDf
        ((calc_imputed_val exScenarioDf 1990 2100).map projectImputed)).map
      (fun out => out.map (·.adjusted_con_gdhi)) =
      some [some 5, some 15, none] ∧
    (runApportionment exScenarioDf
        ((calc_imputed_val exScenarioDf 1990 2100).map projectImputed)).map
      (fun out => out.map (·.con_gdhi)) = some [3, 9, 8] ∧
    (none : Option ℚ) ≠ some 8 := by
  refine ⟨by with_unfolding_all rfl, by with_unfolding_all rfl,
    by with_unfolding_all rfl, by simp⟩

/-- C7 amended: a flagged row with no resolvable safe neighbour on either
side keeps an undefined imputed value (imputation never raises — it is a
total computation); in the subsequent apportionment such a row receives an
undefined adjusted value, and rows whose merged imputed value is undefined
contribute zero delta to the group's imputed mass; on the scenario table the
apportionment returns successfully with the group total untouched. -/
theorem C7_no_neighbour_undefined :
    (∀ (df : List InRow) (s e : Int), ∀ t ∈ calc_imputed_val df s e,
      t.prev_con_gdhi = none → t.next_con_gdhi = none →
      lookupCon df t.lsoa_code (t.next_safe_year + 1) = none →
      t.imputed_gdhi = none) ∧
    (∀ (df : List PropRow) (imputed : List ImpRow) (out : List AdjRow),
      apportion_adjustment df imputed = .ok out →
      ∀ r ∈ out, r.imputed_gdhi = none → r.gdhi_proportion = none →
        r.adjusted_con_gdhi = none) ∧
    (∀ (df : List PropRow) (imputed : List ImpRow) (l : String) (y : Int),
      imputedGroupSum df imputed l y =
        optSum (((df.filter (fun x => x.lad_code == l && x.year == y)).filter
          (fun x => (lookupImputed imputed x.lsoa_code x.year).isSome)).map
          (fun x => lookupImputed imputed x.lsoa_code x.year))) ∧
    (runApportionment exScenarioDf
        ((calc_imputed_val exScenarioDf 1990 2100).map projectImputed)).map
      (fun out => out.map (·.adjusted_total)) = some [20, 20, 20] ∧
    (runApportionment exScenarioDf
        ((calc_imputed_val exScenarioDf 1990 2100).map projectImputed)).map
      (fun out =>
        groupSumOpt out (·.lad_code) (·.year) (·.adjusted_con_gdhi)
          "E01" 2002) = some 20 := by
  refine ⟨?_, ?_, ?_, by with_unfolding_all rfl, by with_unfolding_all rfl⟩
  · intro df s e t ht hpn hnn hw
    rw [calc_imputed_val] at ht
    obtain ⟨r0, hr0, rfl⟩ := List.mem_map.mp ht
    dsimp only [imputedRow] at hpn hnn hw ⊢
    rw [hpn, hnn]
    dsimp only
    simp only [Option.isNone_none, if_true, Option.some_bind]
    rw [hw]
  · intro df imputed out h r hr himp hprop
    have hout : out = apportionAdjustmentRows df imputed := by
      rw [apportion_adjustment] at h
      split at h
      · exact absurd h (by simp)
      · rw [Except.ok.injEq] at h
        exact h.symm
    subst hout
    rw [apportionAdjustmentRows] at hr
    obtain ⟨r0, hr0, rfl⟩ := List.mem_map.mp hr
    dsimp only at himp hprop ⊢
    rw [himp, hprop]
    rfl
  · intro df imputed l y
    exact optSum_map_filter_isSome _ _

/-- The flagged `E3` row as imputation leaves it: no safe value on either
side, imputed value undefined. -/
def exScenarioImputedE3 : ImputedRow :=
  { lsoa_code := "E3", lad_code := "E01", year := 2002, con_gdhi := 8,
    year_to_adjust := [2002], rollback_flag := false,
    prev_safe_year := 2001, prev_con_gdhi := none,
    next_safe_year := 2003, next_con_gdhi := none,
    imputed_gdhi := none }

/-- Witness for the amended C7: the fully isolated flagged row keeps an
undefined imputed value. -/
theorem C7_no_neighbour_undefined_witness :
    exScenarioImputedE3.imputed_gdhi = none :=
  C7_no_neighbour_undefined.1 exScenarioDf 1990 2100 exScenarioImputedE3
    (by with_unfolding_all decide) (by with_unfolding_all rfl)
    (by with_unfolding_all rfl) (by with_unfolding_all rfl)

/-- C8: the rollback flagger sets `rollback_flag` to `true` if and only if
the forward or backward ratio equals exactly `1.0` (exact equality; NaN never
matches) and the year lies in the inclusive window `2010..2014`; a
ratio-exactly-1 row at `2014` is flagged while an identical row at `2015` is
not, and years strictly outside the window are never flagged regardless of
ratio. -/
theorem C8_rollback_flag :
    (∀ df : List RateRow, ∀ r ∈ flag_rollback_years df,
      (r.rollback_flag = true ↔
        ((r.backward_pct_change = some 1 ∨ r.forward_pct_change = some 1) ∧
          2010 ≤ r.year ∧ r.year ≤ 2014))) ∧
    (flag_rollback_years exBoundaryDf).map (·.rollback_flag) =
      [true, false] ∧
    (∀ df : List RateRow, ∀ r ∈ flag_rollback_years df,
      (r.year < 2010 ∨ 2014 < r.year) → r.rollback_flag = false) := by
  have hmain : ∀ df : List RateRow, ∀ r ∈ flag_rollback_years df,
      (r.rollback_flag = true ↔
        ((r.backward_pct_change = some 1 ∨ r.forward_pct_change = some 1) ∧
          2010 ≤ r.year ∧ r.year ≤ 2014)) := by
    intro df r hr
    rw [flag_rollback_years] at hr
    obtain ⟨r0, hr0, rfl⟩ := List.mem_map.mp hr
    dsimp only
    simp [Bool.and_eq_true, Bool.or_eq_true, beq_iff_eq, decide_eq_true_eq,
      and_assoc]
  refine ⟨hmain, by with_unfolding_all rfl, ?_⟩
  intro df r hr h
  cases hf : r.rollback_flag
  · rfl
  · obtain ⟨-, h1, h2⟩ := (hmain df r hr).mp hf
    rcases h with h | h <;> omega

/-- The first output row of `flag_rollback_years exBoundaryDf` (year `2014`,
backward ratio exactly `1`), written out. -/
def exBoundaryOut2014 : RollFlagRow :=
  { lsoa_code := "E1", year := 2014, backward_pct_change := some 1,
    forward_pct_change := some (9/10), rollback_flag := true }

/-- Witness for C8: the boundary year `2014` with an exact ratio of `1` is
flagged. -/
theorem C8_rollback_flag_witness : exBoundaryOut2014.rollback_flag = true :=
  (C8_rollback_flag.1 exBoundaryDf exBoundaryOut2014
      (by with_unfolding_all decide)).mpr
    ⟨Or.inl rfl, by decide, by decide⟩

/-- C9 counterexample: an extreme high outlier (`1000`) in an otherwise flat
series of exactly 3 points is NOT flagged by the z-score detector — with the
Bessel-corrected standard deviation, the outlier's score in a flat series of
`n` points is `(n-1)/sqrt n` independently of the outlier's size, which
cannot exceed `3` for `n = 3` — refuting the claim that a flat series of at
least 3 points with a high outlier is flagged. -/
theorem C9_counterexample : calc_zscores exFlat3 = [false, false, false] := by
  with_unfolding_all rfl

/-- C9 amended: the z-score detector standardizes within the group using the
Bessel-corrected sample standard deviation and flags exactly when the score
exceeds `3.0` (shown over the reals in the fourth conjunct), one-sided: an
undefined score (NaN cell, group below 2 observations, or no positive
variance) is never flagged, a value not above every group member (in
particular an extreme low outlier) is never flagged, and an extreme high
outlier in an otherwise flat series of at least 11 points is flagged (for
3..10 points the flat-series score `(n-1)/sqrt n` stays at or below 3). -/
theorem C9_zscore_one_sided :
    (∀ xs : List (Option ℚ), zFlag xs none = false) ∧
    (∀ (xs : List (Option ℚ)) (v : ℚ),
      ((obsVals xs).length < 2 ∨ sampleVar (obsVals xs) ≤ 0) →
      zFlag xs (some v) = false) ∧
    (∀ (xs : List (Option ℚ)) (v : ℚ),
      (∀ u ∈ obsVals xs, v ≤ u) → zFlag xs (some v) = false) ∧
    (∀ (xs : List (Option ℚ)) (v : ℚ),
      zFlag xs (some v) = true ↔
        (2 ≤ (obsVals xs).length ∧ 0 < sampleVar (obsVals xs) ∧
          3 < ((v - groupMean (obsVals xs) : ℚ) : ℝ) /
            Real.sqrt ((sampleVar (obsVals xs) : ℚ) : ℝ))) ∧
    (∀ (n : ℕ) (v d : ℚ), 11 ≤ n → 0 < d →
      zFlag (List.replicate (n - 1) (some v) ++ [some (v + d)])
        (some (v + d)) = true) ∧
    calc_zscores exFlat11 =
      [false, false, false, false, false, false, false, false, false,
        false, true] := by
  refine ⟨?_, ?_, ?_, fun xs v => zFlag_iff_score xs v, ?_,
    by with_unfolding_all rfl⟩
  · intro xs
    rfl
  · intro xs v h
    rw [zFlag, decide_eq_false_iff_not]
    rintro ⟨h2, hvar, -, -⟩
    rcases h with h | h
    · omega
    · linarith
  · intro xs v hall
    rw [zFlag, decide_eq_false_iff_not]
    rintro ⟨h2, hvar, hdev, -⟩
    have hlen : (0 : ℚ) < ((obsVals xs).length : ℚ) := by
      have : 0 < (obsVals xs).length := by omega
      exact_mod_cast this
    have hsum := mul_length_le_sum v (obsVals xs) hall
    have hmean : v ≤ groupMean (obsVals xs) := by
      rw [groupMean, le_div_iff₀ hlen]
      exact hsum
    linarith
  · intro n v d hn hd
    have hN : (11 : ℚ) ≤ (n : ℚ) := by exact_mod_cast hn
    have hNpos : (0 : ℚ) < (n : ℚ) := by linarith
    have hobs : obsVals (List.replicate (n - 1) (some v) ++ [some (v + d)]) =
        List.replicate (n - 1) v ++ [v + d] := by
      rw [obsVals, List.filterMap_append, filterMap_id_replicate]
      rfl
    have hlen : (List.replicate (n - 1) v ++ [v + d]).length = n := by
      simp only [List.length_append, List.length_replicate,
        List.length_singleton]
      omega
    have hN1 : ((n - 1 : ℕ) : ℚ) = (n : ℚ) - 1 :=
      Nat.cast_sub (by omega : 1 ≤ n)
    have hsum : (List.replicate (n - 1) v ++ [v + d]).sum =
        ((n : ℚ) - 1) * v + (v + d) := by
      rw [List.sum_append, List.sum_replicate, nsmul_eq_mul, hN1]
      simp
    have hmean : groupMean (List.replicate (n - 1) v ++ [v + d]) =
        v + d / (n : ℚ) := by
      rw [groupMean, hsum, hlen]
      field_simp
      ring
    have hmap : (List.replicate (n - 1) v ++ [v + d]).map
        (fun x => (x - (v + d / (n : ℚ))) ^ 2) =
        List.replicate (n - 1) ((v - (v + d / (n : ℚ))) ^ 2) ++
          [((v + d) - (v + d / (n : ℚ))) ^ 2] := by
      rw [List.map_append, List.map_replicate]
      rfl
    have hvar : sampleVar (List.replicate (n - 1) v ++ [v + d]) =
        d ^ 2 / (n : ℚ) := by
      rw [sampleVar, hmean, hmap, hlen, List.sum_append, List.sum_replicate,
        nsmul_eq_mul, hN1]
      have hne : (n : ℚ) ≠ 0 := by linarith
      have hne1 : (n : ℚ) - 1 ≠ 0 := by linarith
      field_simp
      ring
    rw [zFlag, decide_eq_true_eq, hobs, hvar, hmean, hlen]
    refine ⟨by omega, by positivity, ?_, ?_⟩
    · have hlt : d / (n : ℚ) < d := div_lt_self hd (by linarith)
      linarith
    · have h2 : v + d - (v + d / (n : ℚ)) = d - d / (n : ℚ) := by ring
      rw [h2]
      have hNN : 9 * (n : ℚ) < ((n : ℚ) - 1) ^ 2 := by
        nlinarith [mul_nonneg (by linarith : (0 : ℚ) ≤ (n : ℚ) - 11)
          (by linarith : (0 : ℚ) ≤ (n : ℚ))]
      have hsq : (d - d / (n : ℚ)) ^ 2 =
          d ^ 2 * ((n : ℚ) - 1) ^ 2 / (n : ℚ) ^ 2 := by
        field_simp
        ring
      rw [hsq]
      rw [show 9 * (d ^ 2 / (n : ℚ)) = 9 * d ^ 2 / (n : ℚ) by ring]
      rw [div_lt_div_iff₀ hNpos (by positivity)]
      have hdN : (0 : ℚ) < d ^ 2 * (n : ℚ) := by positivity
      nlinarith [mul_lt_mul_of_pos_left hNN hdN]

/-- Witness for the amended C9: the otherwise-flat eleven-point series with
one extreme high outlier has that outlier flagged. -/
theorem C9_zscore_one_sided_witness : zFlag exFlat11 (some 1000) = true := by
  have h := C9_zscore_one_sided.2.2.2.2.1 11 1 999 (by norm_num) (by norm_num)
  rw [show (1 : ℚ) + 999 = 1000 by norm_num] at h
  exact h

/-- C10: the master-flag aggregator (latest revision,
`flag_preprocess.create_master_flag`) sets `master_z_flag` for every row of
an entity exactly when at least one z-flag column sums to at least `1` over
the entity's rows, identically and independently sets `master_iqr_flag` from
the IQR flag columns, and sets `master_flag` to their disjunction, broadcast
to every row of the entity. -/
theorem C10_master_flag :
    ∀ df : List ScoreRow,
      (∀ r ∈ create_master_flag df,
        (r.master_z_flag = true ↔
          ∃ f ∈ zFlagCols, 1 ≤ flagColSum df r.lsoa_code f) ∧
        (r.master_iqr_flag = true ↔
          ∃ f ∈ iqrFlagCols, 1 ≤ flagColSum df r.lsoa_code f) ∧
        r.master_flag = (r.master_z_flag || r.master_iqr_flag)) ∧
      (∀ r ∈ create_master_flag df, ∀ r2 ∈ create_master_flag df,
        r.lsoa_code = r2.lsoa_code →
        r.master_z_flag = r2.master_z_flag ∧
        r.master_iqr_flag = r2.master_iqr_flag ∧
        r.master_flag = r2.master_flag) := by
  intro df
  have hz : ∀ lsoa, masterZFlag df lsoa = true ↔
      ∃ f ∈ zFlagCols, 1 ≤ flagColSum df lsoa f := by
    intro lsoa
    rw [masterZFlag, decide_eq_true_eq]
    constructor
    · intro h
      have hpos : 0 < List.countP
          (fun f => decide (1 ≤ flagColSum df lsoa f)) zFlagCols := by omega
      obtain ⟨f, hf, hp⟩ := List.countP_pos_iff.mp hpos
      exact ⟨f, hf, by simpa using hp⟩
    · rintro ⟨f, hf, hcount⟩
      have hpos : 0 < List.countP
          (fun f => decide (1 ≤ flagColSum df lsoa f)) zFlagCols :=
        List.countP_pos_iff.mpr ⟨f, hf, by simpa using hcount⟩
      omega
  have hiqr : ∀ lsoa, masterIqrFlag df lsoa = true ↔
      ∃ f ∈ iqrFlagCols, 1 ≤ flagColSum df lsoa f := by
    intro lsoa
    rw [masterIqrFlag, decide_eq_true_eq]
    constructor
    · intro h
      have hpos : 0 < List.countP
          (fun f => decide (1 ≤ flagColSum df lsoa f)) iqrFlagCols := by omega
      obtain ⟨f, hf, hp⟩ := List.countP_pos_iff.mp hpos
      exact ⟨f, hf, by simpa using hp⟩
    · rintro ⟨f, hf, hcount⟩
      have hpos : 0 < List.countP
          (fun f => decide (1 ≤ flagColSum df lsoa f)) iqrFlagCols :=
        List.countP_pos_iff.mpr ⟨f, hf, by simpa using hcount⟩
      omega
  constructor
  · intro r hr
    rw [create_master_flag] at hr
    obtain ⟨r0, hr0, rfl⟩ := List.mem_map.mp hr
    exact ⟨hz r0.lsoa_code, hiqr r0.lsoa_code, rfl⟩
  · intro r hr r2 hr2 hls
    rw [create_master_flag] at hr hr2
    obtain ⟨r0, hr0, rfl⟩ := List.mem_map.mp hr
    obtain ⟨r1, hr1, rfl⟩ := List.mem_map.mp hr2
    dsimp only at hls ⊢
    rw [hls]
    exact ⟨rfl, rfl, rfl⟩

/-- Witness for C10 at the concrete flag table: entity `E1` has one z-flag
in one year, so every one of its rows carries `master_z_flag` and hence
`master_flag`. -/
theorem C10_master_flag_witness :
    exMasterRow0.master_flag =
      (exMasterRow0.master_z_flag || exMasterRow0.master_iqr_flag) ∧
    (exMasterRow0.master_z_flag = true ↔
      ∃ f ∈ zFlagCols, 1 ≤ flagColSum exMasterDf "E1" f) :=
  ⟨((C10_master_flag exMasterDf).1 exMasterRow0
      (by with_unfolding_all decide)).2.2,
   ((C10_master_flag exMasterDf).1 exMasterRow0
      (by with_unfolding_all decide)).1⟩

end GdhiAdj
